import Mathlib

/-!
Verification of the Tracey booking service (`src/main.py`) against its
natural-language specification.

The Python program is shallowly embedded: Python strings are `List Char`,
decoded JSON values are the inductive `PyVal`, raised exceptions are the
`Except` error branch, and the external services (identity provider,
Microsoft Graph, Odoo JSON-RPC, Twilio) are modelled by a `World` record of
their responses.  Every handler returns its outcome together with the list
of outbound calls it performed, so that side-effect claims ("the CRM is
never invoked") are statements about the recorded trace.
-/

/-- Python `s.split(sep)` for a one-character separator `sep`, as used at
`main.py` lines 93-94 (`split("+")`) and 256-259 (`split("T")`,
`split(".")`).  Like Python's `split`, the result is never empty. -/
def pySplit (sep : Char) : List Char → List (List Char)
  | [] => [[]]
  | c :: rest =>
    if c = sep then [] :: pySplit sep rest
    else
      match pySplit sep rest with
      | [] => [[c]]
      | p :: ps => (c :: p) :: ps

/-- Python `s.strip()` (no argument): remove leading and trailing
whitespace.  Modelled with `Char.isWhitespace` (space, tab, CR, LF), which
agrees with Python on the ASCII whitespace relevant here. -/
def pyStrip (s : List Char) : List Char :=
  ((s.dropWhile Char.isWhitespace).reverse.dropWhile Char.isWhitespace).reverse

/-- Python `s.replace(c, r)` for a one-character pattern `c`: every
occurrence of `c` is replaced by the string `r`. -/
def pyReplace (c : Char) (r : List Char) : List Char → List Char
  | [] => []
  | x :: rest => (if x = c then r else [x]) ++ pyReplace c r rest

/-- The `try` branch of `clean_datetime` (`main.py` lines 254-257):
`dt_str.split("T")[0] + " " + dt_str.split("T")[1].split(".")[0]` followed
by `.strip()`.  `Option.none` models the branch raising (Python's
`IndexError` when the subscript `[1]` is out of range). -/
def cdTry (dt : List Char) : Option (List Char) := do
  let a ← (pySplit ('T') dt)[0]?
  let b ← (pySplit ('T') dt)[1]?
  let c ← (pySplit ('.') b)[0]?
  pure (pyStrip (a ++ (' ') :: c))

/-- The `except` branch of `clean_datetime` (`main.py` line 259):
`dt_str.replace("T", " ").split(".")[0]`. -/
def cdExcept (dt : List Char) : Option (List Char) :=
  (pySplit ('.') (pyReplace ('T') ([' ']) dt))[0]?

/-- `clean_datetime` (`main.py` lines 249-259): run the `try` branch and
fall back to the `except` branch if it raised.  The result is `Option` so
that the theorem that the function never raises is a statement, not a
modelling assumption. -/
def clean_datetime (dt : List Char) : Option (List Char) :=
  match cdTry dt with
  | some r => some r
  | Option.none => cdExcept dt

/-- A decoded JSON / Python value, as handled by the program: `None`,
booleans, integers, strings, arrays and objects.  Service response bodies
are modelled as already-decoded `PyVal`s (the program always calls
`response.json()` immediately). -/
inductive PyVal where
  | none
  | bool (b : Bool)
  | int (n : Int)
  | str (s : List Char)
  | list (xs : List PyVal)
  | dict (fields : List (List Char × PyVal))

/-- Lookup in a (modelled) Python dict, with Python's `dict.get` default of
`None` for a missing key. -/
def dictGet (fs : List (List Char × PyVal)) (k : List Char) : PyVal :=
  match fs.lookup k with
  | some v => v
  | Option.none => PyVal.none

/-- Python `k in d` on a dict: key membership. -/
def hasKey (fs : List (List Char × PyVal)) (k : List Char) : Bool :=
  (fs.lookup k).isSome

/-- `d.get(k)` on an arbitrary value: field of an object, `None`
otherwise (used only to state results; the embedding itself branches on the
`dict` constructor where Python would raise `AttributeError`). -/
def PyVal.getD (v : PyVal) (k : List Char) : PyVal :=
  match v with
  | .dict fs => dictGet fs k
  | _ => PyVal.none

/-- Python truthiness, as used by `if not uid` (`main.py` line 243). -/
def PyVal.truthy : PyVal → Bool
  | .none => false
  | .bool b => b
  | .int n => n != 0
  | .str s => !s.isEmpty
  | .list xs => !xs.isEmpty
  | .dict fs => !fs.isEmpty

/-- Python `isinstance(v, int)` (`main.py` line 243); note that Python
booleans are instances of `int`. -/
def PyVal.isInstInt : PyVal → Bool
  | .int _ => true
  | .bool _ => true
  | _ => false

/-- Whether a value is Python's `None` (the JSON `null`). -/
def PyVal.isNone : PyVal → Bool
  | .none => true
  | _ => false

/-- A raised Python exception: either FastAPI's `HTTPException`, which
carries the HTTP status and a detail value, or any other `Exception`. -/
inductive PyErr where
  | httpException (status : Nat) (detail : PyVal)
  | exn

/-- One outbound call to an external service.  Handlers return the ordered
list of calls they performed, so that side-effect claims are statements
about this trace. -/
inductive Call where
  | getToken
  | findMeetingTimes (start_dt end_dt duration : List Char)
  | outlookCreate (payload : PyVal)
  | odooAuth
  | odooCreate (fields : PyVal)
  | smsSend (dest body : List Char)

/-- The Odoo (CRM) calls of the trace. -/
def Call.isOdoo : Call → Bool
  | .odooAuth => true
  | .odooCreate _ => true
  | _ => false

/-- `AvailabilityRequest` (`main.py` lines 63-66). -/
structure AvailabilityRequest where
  start_time : List Char
  end_time : List Char
  duration : List Char

/-- `BookMeetingRequest` (`main.py` lines 69-77).  The pydantic defaults
(`attendee_name = "Guest"`, `phone = ""`, `location = "Microsoft Teams
Meeting"`) are applied before the handler runs, so the structure holds the
final field values. -/
structure BookMeetingRequest where
  subject : List Char
  body : List Char
  start_time : List Char
  end_time : List Char
  attendee : List Char
  attendee_name : List Char
  phone : List Char
  location : List Char

/-- `SMSRequests` (`main.py` lines 80-83). -/
structure SMSRequest where
  phone : List Char
  start_time : List Char
  end_time : List Char

/-- The responses of the external services for one request.  `tokenResp`
is the dict returned by `msal`'s `acquire_token_for_client` (always a
dict); the HTTP bodies are already-decoded JSON values. -/
structure World where
  tokenResp : List (List Char × PyVal)
  outlookStatus : Nat
  outlookBody : PyVal
  odooAuthResp : PyVal
  odooCreateResp : PyVal

def accessTokenKey : List Char := ("access_token").toList
def idKey : List Char := ("id").toList
def errorKey : List Char := ("error").toList
def resultKey : List Char := ("result").toList
def responseKey : List Char := ("response").toList
def statusKey : List Char := ("status").toList
def outlookEventIdKey : List Char := ("outlook_event_id").toList
def odooEventIdKey : List Char := ("odoo_event_id").toList
def subjectKey : List Char := ("subject").toList
def startKey : List Char := ("start").toList
def stopKey : List Char := ("stop").toList
def endKey : List Char := ("end").toList
def attendeeKey : List Char := ("attendee").toList
def phoneKey : List Char := ("phone").toList
def nameKey : List Char := ("name").toList
def descriptionKey : List Char := ("description").toList
def outlookFailedMsg : List Char := ("Outlook booking failed").toList
def bookedMsg : List Char := ("Outlook meeting booked successfully").toList

/-- `get_token` (`main.py` lines 50-59): raises unless the identity
provider's result carries an `access_token`. -/
def get_token (tokenResp : List (List Char × PyVal)) : Except PyErr PyVal :=
  if hasKey tokenResp accessTokenKey then Except.ok (dictGet tokenResp accessTokenKey)
  else Except.error PyErr.exn

/-- The offset-stripping transform of `/availability` (`main.py` lines
93-94): `request.start_time.split("+")[0]`. -/
def strip_offset (s : List Char) : List Char :=
  (pySplit ('+') s).headD []

/-- The external responses seen by `/availability`. -/
structure AvailWorld where
  tokenResp : List (List Char × PyVal)
  status : Nat
  body : PyVal

/-- `check_availability` (`main.py` lines 87-114): acquire a token, strip
the offsets, POST `findMeetingTimes`, and either propagate the body on 200
or raise an `HTTPException` with the upstream status and body.  The
recorded call carries the two processed datetimes and the duration; the
constant payload boilerplate around them (owner attendee, fixed timezone
label) is not replayed in the trace. -/
def check_availability (req : AvailabilityRequest) (w : AvailWorld) :
    Except PyErr PyVal × List Call :=
  match get_token w.tokenResp with
  | .error e => (.error e, [Call.getToken])
  | .ok _ =>
    let start_dt := strip_offset req.start_time
    let end_dt := strip_offset req.end_time
    let trace := [Call.getToken, Call.findMeetingTimes start_dt end_dt req.duration]
    if w.status ≠ 200 then (.error (.httpException w.status w.body), trace)
    else (.ok w.body, trace)

/-- The Outlook event payload built by `book_meeting` (`main.py` lines
127-150). -/
def outlookEventPayload (req : BookMeetingRequest) : PyVal :=
  PyVal.dict [
    (subjectKey, .str req.subject),
    (("body").toList, .dict [
      (("contentType").toList, .str (("HTML").toList)),
      (("content").toList, .str (req.body
        ++ ("<br><br><b>Caller details:</b><br>Name: ").toList ++ req.attendee_name
        ++ ("<br>Email: ").toList ++ req.attendee
        ++ ("<br>Phone: ").toList ++ req.phone))]),
    (startKey, .dict [(("dateTime").toList, .str req.start_time),
      (("timeZone").toList, .str (("Cen. Australia Standard Time").toList))]),
    (endKey, .dict [(("dateTime").toList, .str req.end_time),
      (("timeZone").toList, .str (("Cen. Australia Standard Time").toList))]),
    (("location").toList, .dict [(("displayName").toList, .str req.location)]),
    (("attendees").toList, .list [
      .dict [(("emailAddress").toList, .dict [(("address").toList, .str req.attendee),
        (nameKey, .str req.attendee_name)]),
        (("type").toList, .str (("required").toList))]]),
    (("isOnlineMeeting").toList, .bool true),
    (("onlineMeetingProvider").toList, .str (("teamsForBusiness").toList))]

/-- `create_odoo_event` (`main.py` lines 220-297): authenticate over
JSON-RPC, check the `result` uid (`if not uid or not isinstance(uid,
int)`), normalise the datetimes with `clean_datetime`, POST the create
call, and fail if the RPC response carries an `error` key.  A non-dict
JSON-RPC response makes the Python code raise at its next attribute or
membership access; observably (all of this runs under the caller's
`except`) that is the same as failing at the response check, which is how
it is modelled. -/
def create_odoo_event (authResp createResp : PyVal)
    (name email phone start stop subject : List Char) :
    Except PyErr PyVal × List Call :=
  match authResp with
  | .dict fs =>
    let uid := dictGet fs resultKey
    if !uid.truthy || !uid.isInstInt then (.error .exn, [Call.odooAuth])
    else
      match clean_datetime start, clean_datetime stop with
      | some start_fmt, some stop_fmt =>
        let fields := PyVal.dict [
          (nameKey, .str (subject ++ (" - ").toList ++ name)),
          (startKey, .str start_fmt),
          (stopKey, .str stop_fmt),
          (descriptionKey, .str (("Email: ").toList ++ email
            ++ ("\nPhone: ").toList ++ phone))]
        match createResp with
        | .dict gs =>
          if hasKey gs errorKey then (.error .exn, [Call.odooAuth, Call.odooCreate fields])
          else (.ok (dictGet gs resultKey), [Call.odooAuth, Call.odooCreate fields])
        | _ => (.error .exn, [Call.odooAuth, Call.odooCreate fields])
      | _, _ => (.error .exn, [Call.odooAuth])
  | _ => (.error .exn, [Call.odooAuth])

/-- The success dictionary returned by `book_meeting` (`main.py` lines
183-192), with `fs` the fields of the decoded Outlook response body and
`oid` the Odoo event id (or `None`). -/
def bookSuccess (req : BookMeetingRequest) (fs : List (List Char × PyVal))
    (oid : PyVal) : PyVal :=
  PyVal.dict [
    (statusKey, .str bookedMsg),
    (outlookEventIdKey, dictGet fs idKey),
    (odooEventIdKey, oid),
    (subjectKey, dictGet fs subjectKey),
    (startKey, dictGet fs startKey),
    (endKey, dictGet fs endKey),
    (attendeeKey, .str req.attendee),
    (phoneKey, .str req.phone)]

/-- `book_meeting` (`main.py` lines 118-192): acquire a token, create the
Outlook event; on any status other than 201 raise an `HTTPException` with
the upstream status and a wrapping detail `{error, response}`; otherwise
sync to Odoo inside `try`, downgrading any exception to a `None` Odoo id,
and return the summary dict.  A non-dict 201 body makes `data.get("id")`
raise (`AttributeError`, outside any `try`). -/
def book_meeting (req : BookMeetingRequest) (w : World) :
    Except PyErr PyVal × List Call :=
  match get_token w.tokenResp with
  | .error e => (.error e, [Call.getToken])
  | .ok _ =>
    let ev := outlookEventPayload req
    if w.outlookStatus ≠ 201 then
      (.error (.httpException w.outlookStatus
        (PyVal.dict [(errorKey, .str outlookFailedMsg), (responseKey, w.outlookBody)])),
       [Call.getToken, Call.outlookCreate ev])
    else
      match w.outlookBody with
      | .dict fs =>
        let res := create_odoo_event w.odooAuthResp w.odooCreateResp
          req.attendee_name req.attendee req.phone req.start_time req.end_time req.subject
        let oid := match res.1 with
          | .ok v => v
          | .error _ => PyVal.none
        (.ok (bookSuccess req fs oid), [Call.getToken, Call.outlookCreate ev] ++ res.2)
      | _ => (.error .exn, [Call.getToken, Call.outlookCreate ev])

/-- A parsed Python `datetime`: proleptic-Gregorian fields plus an
optional fixed UTC offset in minutes (`Option.none` models a naive
datetime). -/
structure PyDatetime where
  year : Nat
  month : Nat
  day : Nat
  hour : Nat
  minute : Nat
  second : Nat
  offset : Option Int

def digitVal? (c : Char) : Option Nat :=
  if c.isDigit then some (c.toNat - ('0').toNat) else Option.none

/-- Read exactly `w` decimal digits, accumulating into `acc`. -/
def readFixed : Nat → Nat → List Char → Option (Nat × List Char)
  | 0, acc, rest => some (acc, rest)
  | w + 1, acc, c :: rest =>
    match digitVal? c with
    | some d => readFixed w (acc * 10 + d) rest
    | Option.none => Option.none
  | _ + 1, _, [] => Option.none

def expectChar (c : Char) : List Char → Option (List Char)
  | x :: rest => if x = c then some rest else Option.none
  | [] => Option.none

def isLeap (y : Nat) : Bool :=
  (y % 4 == 0 && y % 100 != 0) || y % 400 == 0

def daysInMonth (y m : Nat) : Nat :=
  if m = 2 then (if isLeap y then 29 else 28)
  else if m = 4 ∨ m = 6 ∨ m = 9 ∨ m = 11 then 30
  else 31

/-- Days of the proleptic Gregorian calendar strictly before January 1 of
year `y`, counting from year 1 (so `daysBeforeYear 1 = 0`). -/
def daysBeforeYear (y : Nat) : Nat :=
  let n := y - 1
  365 * n + n / 4 - n / 100 + n / 400

def daysBeforeMonth (y m : Nat) : Nat :=
  (List.range (m - 1)).foldl (fun acc i => acc + daysInMonth y (i + 1)) 0

/-- Python `date.toordinal()`: 0001-01-01 is day 1. -/
def rataDie (y m d : Nat) : Nat :=
  daysBeforeYear y + daysBeforeMonth y m + d

/-- Inverse of `rataDie` (standard civil-from-days computation). -/
def civilFromRD (rd : Nat) : Nat × Nat × Nat :=
  let z := rd + 305
  let era := z / 146097
  let doe := z % 146097
  let yoe := (doe - doe / 1460 + doe / 36524 - doe / 146096) / 365
  let y := yoe + era * 400
  let doy := doe - (365 * yoe + yoe / 4 - yoe / 100)
  let mp := (5 * doy + 2) / 153
  let d := doy - (153 * mp + 2) / 5 + 1
  let m := if mp < 10 then mp + 3 else mp - 9
  (if m ≤ 2 then y + 1 else y, m, d)

/-- Rata-die day of the first Sunday of month `m` of year `y`
(0001-01-01, rata die 1, was a Monday). -/
def firstSundayOrd (y m : Nat) : Nat :=
  let o1 := rataDie y m 1
  o1 + ((13 - (o1 - 1) % 7) % 7)

/-- `datetime.fromisoformat` (`main.py` line 39), on the grammar the
program feeds it after `Z` has been rewritten to `+00:00`:
`YYYY-MM-DD[THH:MM[:SS[.f+]]][(+|-)HH:MM]`, with calendar and range
validation.  `Option.none` models `ValueError`. -/
def pyFromIsoformat (s : List Char) : Option PyDatetime := do
  let (y, r1) ← readFixed 4 0 s
  let r2 ← expectChar ('-') r1
  let (mo, r3) ← readFixed 2 0 r2
  let r4 ← expectChar ('-') r3
  let (d, r5) ← readFixed 2 0 r4
  if 1 ≤ y ∧ 1 ≤ mo ∧ mo ≤ 12 ∧ 1 ≤ d ∧ d ≤ daysInMonth y mo then
    match r5 with
    | [] => some { year := y, month := mo, day := d, hour := 0, minute := 0,
                   second := 0, offset := Option.none }
    | sep :: r6 =>
      if sep = 'T' then do
        let (h, t1) ← readFixed 2 0 r6
        let t2 ← expectChar (':') t1
        let (mi, t3) ← readFixed 2 0 t2
        let (sec, t5) ← (match t3 with
          | ':' :: t4 => readFixed 2 0 t4
          | _ => some (0, t3))
        let t6 ← (match t5 with
          | '.' :: t7 =>
            let ds := t7.takeWhile Char.isDigit
            if 1 ≤ ds.length then some (t7.drop ds.length)
            else Option.none
          | _ => some t5)
        let (off, t8) ← (match t6 with
          | [] => some ((Option.none : Option Int), ([] : List Char))
          | c :: rest =>
            if c = '+' ∨ c = '-' then do
              let (oh, u1) ← readFixed 2 0 rest
              let u2 ← expectChar (':') u1
              let (om, u3) ← readFixed 2 0 u2
              if oh ≤ 23 ∧ om ≤ 59 then
                let off : Int := (oh * 60 + om : Nat)
                some (some (if c = '-' then -off else off), u3)
              else Option.none
            else Option.none)
        if h ≤ 23 ∧ mi ≤ 59 ∧ sec ≤ 59 ∧ t8 = [] then
          some { year := y, month := mo, day := d, hour := h, minute := mi,
                 second := sec, offset := off }
        else Option.none
      else Option.none
  else Option.none

/-- Australia/Adelaide standard offset, in minutes (UTC+9:30). -/
def ADL_STD : Int := 570
/-- Australia/Adelaide daylight-saving offset, in minutes (UTC+10:30). -/
def ADL_DST : Int := 630

/-- Minutes from 0001-01-01 00:00 to the wall-clock reading of `dt`
(seconds ignored: all offsets involved are whole minutes and rendering is
minute-precision). -/
def localMinutes (dt : PyDatetime) : Int :=
  ((rataDie dt.year dt.month dt.day - 1) * 1440 + dt.hour * 60 + dt.minute : Nat)

/-- UTC instant (minutes) at which Adelaide DST starts in year `y`:
first Sunday of October, 02:00 ACST. -/
def adlDstStart (y : Nat) : Int :=
  ((firstSundayOrd y 10 - 1) * 1440 + 120 : Nat) - ADL_STD

/-- UTC instant (minutes) at which Adelaide DST ends in year `y`:
first Sunday of April, 03:00 ACDT. -/
def adlDstEnd (y : Nat) : Int :=
  ((firstSundayOrd y 4 - 1) * 1440 + 180 : Nat) - ADL_DST

/-- The Australia/Adelaide UTC offset at a UTC instant, per the zone's
statutory rule in force since 2008 (DST from the first Sunday of October
02:00 ACST to the first Sunday of April 03:00 ACDT).  Historical offsets
of earlier eras are outside the modelled range. -/
def adlOffsetAt (instant : Int) : Int :=
  let rd := (instant / 1440).toNat + 1
  let y := (civilFromRD rd).1
  if instant < adlDstEnd y ∨ adlDstStart y ≤ instant then ADL_DST else ADL_STD

def natDigits (n : Nat) : List Char := (Nat.repr n).toList

def two (n : Nat) : List Char :=
  if n < 10 then ('0') :: natDigits n else natDigits n

def monthNames : List (List Char) :=
  [("Jan").toList, ("Feb").toList, ("Mar").toList, ("Apr").toList,
   ("May").toList, ("Jun").toList, ("Jul").toList, ("Aug").toList,
   ("Sep").toList, ("Oct").toList, ("Nov").toList, ("Dec").toList]

/-- `strftime` with the program's format string
`"%d %b %Y, %I:%M %p"` (`main.py` line 46). -/
def strftimeOut (y mo d h mi : Nat) : List Char :=
  let h12 := if h % 12 = 0 then 12 else h % 12
  let ampm := if h < 12 then ("AM").toList else ("PM").toList
  two d ++ (' ') :: (monthNames.getD (mo - 1) []) ++ (' ') :: natDigits y
    ++ (", ").toList ++ two h12 ++ (':') :: two mi ++ (' ') :: ampm

/-- Local minutes of 10000-01-01 00:00: `datetime` overflows at year
10000, so conversions landing at or beyond it raise. -/
def maxLocalMinutes : Int := (daysBeforeYear 10000 * 1440 : Nat)

/-- `format_datetime` (`main.py` lines 37-46): rewrite `Z` to `+00:00`,
parse with `fromisoformat`, convert to Australia/Adelaide and render.
For a naive input (no offset), Python's `astimezone` interprets the value
in the host machine's local timezone; that environment-dependent branch is
delegated to the `host` parameter.  `Option.none` models a raised
exception (`ValueError` on parse, `OverflowError` past the `datetime`
year range). -/
def format_datetime (host : PyDatetime → Option (List Char)) (s : List Char) :
    Option (List Char) :=
  match pyFromIsoformat (pyReplace ('Z') (("+00:00").toList) s) with
  | Option.none => Option.none
  | some dt =>
    match dt.offset with
    | Option.none => host dt
    | some off =>
      let instant := localMinutes dt - off
      let lm := instant + adlOffsetAt instant
      if lm < 0 ∨ maxLocalMinutes ≤ lm then Option.none
      else
        let rd := (lm / 1440).toNat + 1
        let c := civilFromRD rd
        let rem := (lm % 1440).toNat
        some (strftimeOut c.1 c.2.1 c.2.2 (rem / 60) (rem % 60))

/-- The SMS text built by `send_sms_confirmation` (`main.py` lines
205-209). -/
def smsBody (start_fmt end_fmt : List Char) : List Char :=
  ("Your meeting with Tracey has been booked for ").toList ++ start_fmt
    ++ (" to ").toList ++ end_fmt
    ++ (". If you need to make changes, please call: 0483 905 455").toList

/-- `send_sms_confirmation` (`main.py` lines 195-217): format both
timestamps (a parse failure raises and aborts the request before any
gateway interaction), then send one SMS through the gateway and report
success.  The gateway send itself is modelled as succeeding; only the
recorded call matters to the stated claims. -/
def send_sms_confirmation (host : PyDatetime → Option (List Char))
    (req : SMSRequest) : Except PyErr PyVal × List Call :=
  match format_datetime host req.start_time with
  | Option.none => (.error .exn, [])
  | some s =>
    match format_datetime host req.end_time with
    | Option.none => (.error .exn, [])
    | some e =>
      (.ok (PyVal.dict [(statusKey, .str (("SMS sent to ").toList ++ req.phone))]),
       [Call.smsSend req.phone (smsBody s e)])

/-- The datetime transform exactly as claim C5's words read, for
comparison with the embedded `clean_datetime`: the portion before the
first `T`, a single space, and the portion after the first `T` truncated
before its first `.` (spec-side definition; not the code). -/
def clean_datetime_claimed (dt : List Char) : List Char :=
  dt.takeWhile (fun c => c != ('T')) ++ (' ')
    :: ((dt.dropWhile (fun c => c != ('T'))).tail.takeWhile (fun c => c != ('.')))

/-- A token-endpoint response that carries an access token. -/
def tokenOkResp : List (List Char × PyVal) :=
  [(accessTokenKey, PyVal.str (("tok123").toList))]

/-- A sample booking request (fields as the pydantic model would deliver
them, defaults applied). -/
def reqEx : BookMeetingRequest :=
  { subject := ("Intro call").toList,
    body := ("Discuss onboarding").toList,
    start_time := ("2025-10-16T10:00:00").toList,
    end_time := ("2025-10-16T11:00:00").toList,
    attendee := ("a@b.com").toList,
    attendee_name := ("Guest").toList,
    phone := ("+615550000").toList,
    location := ("Microsoft Teams Meeting").toList }

/-- A world where the Outlook create-event call is rejected with 409. -/
def wCalFail : World :=
  { tokenResp := tokenOkResp,
    outlookStatus := 409,
    outlookBody := PyVal.dict [(errorKey, PyVal.str (("conflict").toList))],
    odooAuthResp := PyVal.dict [(resultKey, PyVal.int 7)],
    odooCreateResp := PyVal.dict [(resultKey, PyVal.int 42)] }

/-- Fields of a successful Outlook 201 response body. -/
def goodFields : List (List Char × PyVal) :=
  [(idKey, PyVal.str (("E1").toList)),
   (subjectKey, PyVal.str (("Intro call").toList)),
   (startKey, PyVal.dict [(("dateTime").toList,
      PyVal.str (("2025-10-16T10:00:00").toList))]),
   (endKey, PyVal.dict [(("dateTime").toList,
      PyVal.str (("2025-10-16T11:00:00").toList))])]

/-- A world where Outlook succeeds but the Odoo authentication response
lacks a `result` uid, so the CRM sync raises. -/
def wCrmFail : World :=
  { tokenResp := tokenOkResp,
    outlookStatus := 201,
    outlookBody := PyVal.dict goodFields,
    odooAuthResp := PyVal.dict [],
    odooCreateResp := PyVal.dict [(resultKey, PyVal.int 42)] }

/-- An Outlook 201 response body without an `id` field. -/
def noIdFields : List (List Char × PyVal) :=
  [(subjectKey, PyVal.str (("Intro call").toList))]

/-- A world where Outlook returns 201 but with a body that has no `id`,
and the Odoo sync succeeds with record 42. -/
def wNoId : World :=
  { tokenResp := tokenOkResp,
    outlookStatus := 201,
    outlookBody := PyVal.dict noIdFields,
    odooAuthResp := PyVal.dict [(resultKey, PyVal.int 7)],
    odooCreateResp := PyVal.dict [(resultKey, PyVal.int 42)] }

/-- A world where both Outlook and Odoo succeed. -/
def wGood : World :=
  { tokenResp := tokenOkResp,
    outlookStatus := 201,
    outlookBody := PyVal.dict goodFields,
    odooAuthResp := PyVal.dict [(resultKey, PyVal.int 7)],
    odooCreateResp := PyVal.dict [(resultKey, PyVal.int 42)] }

/-- A sample availability request. -/
def availReqEx : AvailabilityRequest :=
  { start_time := ("2025-09-06T09:00:00+09:30").toList,
    end_time := ("2025-09-06T10:00:00+09:30").toList,
    duration := ("PT30M").toList }

/-- An availability world whose upstream answers 204 (a 2xx status other
than 200). -/
def wAvail204 : AvailWorld :=
  { tokenResp := tokenOkResp, status := 204, body := PyVal.dict [] }

/-- An availability world whose upstream answers 200. -/
def wAvail200 : AvailWorld :=
  { tokenResp := tokenOkResp, status := 200, body := PyVal.list [PyVal.dict []] }

/-- A fixed interpretation of the environment-dependent naive-datetime
branch, for instantiating host-parametric theorems. -/
def hostNone : PyDatetime → Option (List Char) := fun _ => Option.none

/-- An SMS request whose start timestamp is not parseable. -/
def smsReqBad : SMSRequest :=
  { phone := ("+615550000").toList,
    start_time := ("not-a-date").toList,
    end_time := ("2025-10-16T01:00:00Z").toList }

/-- Python split never returns an empty list of pieces. -/
theorem pySplit_ne_nil (sep : Char) (s : List Char) : pySplit sep s ≠ [] := by
  induction s with
  | nil => simp [pySplit]
  | cons c rest ih =>
    by_cases h : c = sep
    · simp [pySplit, h]
    · cases hres : pySplit sep rest with
      | nil => exact absurd hres ih
      | cons p ps => simp [pySplit, h, hres]

/-- The first piece of a Python split is the longest separator-free
prefix. -/
theorem pySplit_zero (sep : Char) (s : List Char) :
    (pySplit sep s)[0]? = some (s.takeWhile (fun c => c != sep)) := by
  induction s with
  | nil => rfl
  | cons c rest ih =>
    by_cases h : c = sep
    · subst h
      simp [pySplit]
    · cases hres : pySplit sep rest with
      | nil => exact absurd hres (pySplit_ne_nil sep rest)
      | cons p ps =>
        rw [hres] at ih
        simp only [List.getElem?_cons_zero, Option.some.injEq] at ih
        simp [pySplit, h, hres, List.takeWhile_cons_of_pos, ih, bne_iff_ne]

/-- The second piece of a Python split, when the separator occurs: the
separator-free run that follows the first separator. -/
theorem pySplit_one (sep : Char) (s : List Char) (h : sep ∈ s) :
    (pySplit sep s)[1]? =
      some (((s.dropWhile (fun c => c != sep)).tail).takeWhile (fun c => c != sep)) := by
  induction s with
  | nil => cases h
  | cons c rest ih =>
    by_cases hc : c = sep
    · subst hc
      simp [pySplit, pySplit_zero]
    · have hmem : sep ∈ rest := by
        cases h with
        | head => exact absurd rfl hc
        | tail _ hr => exact hr
      cases hres : pySplit sep rest with
      | nil => exact absurd hres (pySplit_ne_nil sep rest)
      | cons p ps =>
        have ih' := ih hmem
        rw [hres] at ih'
        have hdrop : (c :: rest).dropWhile (fun c => c != sep) =
            rest.dropWhile (fun c => c != sep) := by
          apply List.dropWhile_cons_of_pos
          simp [bne_iff_ne, hc]
        rw [hdrop]
        simpa [pySplit, hc, hres] using ih'

/-- A Python split with no separator occurrence returns the whole string
as the single piece. -/
theorem pySplit_no_sep (sep : Char) (s : List Char) (h : sep ∉ s) :
    pySplit sep s = [s] := by
  induction s with
  | nil => rfl
  | cons c rest ih =>
    have hc : ¬ c = sep := fun hEq => h (hEq ▸ List.mem_cons_self c rest)
    have hmem : sep ∉ rest := fun hr => h (List.mem_cons_of_mem c hr)
    simp [pySplit, hc, ih hmem]

/-- Replacing a character that does not occur leaves the string
unchanged. -/
theorem pyReplace_no_occ (c : Char) (r : List Char) (s : List Char) (h : c ∉ s) :
    pyReplace c r s = s := by
  induction s with
  | nil => rfl
  | cons x rest ih =>
    have hx : ¬ x = c := fun hEq => h (hEq ▸ List.mem_cons_self x rest)
    have hmem : c ∉ rest := fun hr => h (List.mem_cons_of_mem x hr)
    simp [pyReplace, hx, ih hmem]

/-- C4: `clean_datetime` is total — for every string input (including the
empty string, strings without `T`, and strings without `.`) it returns a
string; no input reaches an unhandled exception. -/
theorem clean_datetime_total (dt : List Char) : ∃ r, clean_datetime dt = some r := by
  unfold clean_datetime
  cases h : cdTry dt with
  | some r => exact ⟨r, rfl⟩
  | none =>
    cases hs : pySplit ('.') (pyReplace ('T') ([' ']) dt) with
    | nil => exact absurd hs (pySplit_ne_nil _ _)
    | cons p ps => exact ⟨p, by simp [cdExcept, hs]⟩

/-- C5 counterexample: on the input `" aTbTc"`, which contains `T`,
`clean_datetime` does not return "the portion before the first `T`, a
single space, and the portion after the `T` truncated before its first
`.`" — the code also truncates the second portion at the next `T` and
strips surrounding whitespace. -/
theorem clean_datetime_claim_cex :
    ('T') ∈ (" aTbTc").toList
    ∧ clean_datetime ((" aTbTc").toList)
      ≠ some (clean_datetime_claimed ((" aTbTc").toList)) := by
  decide

/-- C5 (amended): for every input containing `T`, `clean_datetime` returns
the portion before the first `T`, a single space, and the portion strictly
between the first `T` and the next `T` (or end of string) truncated before
its first `.`, with leading and trailing whitespace stripped from the
joined result; when no `T` is present, it returns the input with `T`
replaced by a space (a no-op on such input) and truncated at the first
`.`. -/
theorem clean_datetime_with_sep :
    (∀ dt : List Char, ('T') ∈ dt →
      clean_datetime dt = some (pyStrip (dt.takeWhile (fun c => c != ('T'))
        ++ (' ') :: ((dt.dropWhile (fun c => c != ('T'))).tail.takeWhile
            (fun c => c != ('T'))).takeWhile (fun c => c != ('.')))))
    ∧ (∀ dt : List Char, ('T') ∉ dt →
      clean_datetime dt = some (dt.takeWhile (fun c => c != ('.')))) := by
  constructor
  · intro dt h
    have h0 := pySplit_zero ('T') dt
    have h1 := pySplit_one ('T') dt h
    have h2 := pySplit_zero ('.')
      ((dt.dropWhile (fun c => c != ('T'))).tail.takeWhile (fun c => c != ('T')))
    unfold clean_datetime cdTry
    rw [h0, h1]
    simp [h2]
  · intro dt h
    have hsplit := pySplit_no_sep ('T') dt h
    have hrep := pyReplace_no_occ ('T') ([' ']) dt h
    have h0 := pySplit_zero ('.') dt
    unfold clean_datetime cdTry cdExcept
    rw [hsplit, hrep, h0]
    rfl

/-- Witness for C5 (amended): the claim's own example input evaluates to
the claim's expected output, and a `T`-free input is truncated at its
first dot. -/
theorem clean_datetime_with_sep_witness :
    clean_datetime (("2025-10-16T10:00:00.0000000").toList)
      = some (("2025-10-16 10:00:00").toList)
    ∧ clean_datetime (("abc.def").toList) = some (("abc").toList) :=
  ⟨(clean_datetime_with_sep.1 (("2025-10-16T10:00:00.0000000").toList)
      (by decide)).trans (by decide),
   (clean_datetime_with_sep.2 (("abc.def").toList) (by decide)).trans (by decide)⟩

/-- C6: the offset-stripping transform of `/availability` truncates its
input at the first `+` and leaves inputs without `+` unchanged; the
claim's three concrete examples evaluate as stated (in particular a `-`
negative offset is not stripped). -/
theorem strip_offset_spec :
    (∀ s, strip_offset s = s.takeWhile (fun c => c != ('+')))
    ∧ (∀ s, ('+') ∉ s → strip_offset s = s)
    ∧ strip_offset (("2025-09-06T09:00:00+09:30").toList)
      = ("2025-09-06T09:00:00").toList
    ∧ strip_offset (("2025-09-06T09:00:00").toList)
      = ("2025-09-06T09:00:00").toList
    ∧ strip_offset (("2025-09-06T09:00:00-09:30").toList)
      = ("2025-09-06T09:00:00-09:30").toList := by
  have key : ∀ s, strip_offset s = s.takeWhile (fun c => c != ('+')) := by
    intro s
    unfold strip_offset
    cases hs : pySplit ('+') s with
    | nil => exact absurd hs (pySplit_ne_nil _ _)
    | cons p ps =>
      have h0 := pySplit_zero ('+') s
      rw [hs] at h0
      simp only [List.getElem?_cons_zero, Option.some.injEq] at h0
      simp [h0]
  refine ⟨key, ?_, by decide, by decide, by decide⟩
  intro s hnot
  rw [key s]
  apply List.takeWhile_eq_self_iff.mpr
  intro x hx
  simp only [bne_iff_ne, ne_eq, decide_eq_true_eq]
  exact fun hEq => hnot (hEq ▸ hx)

/-- Witness for C6: the no-`+` conjunct applied at a concrete input. -/
theorem strip_offset_spec_witness :
    strip_offset (("2025-09-06T09:00:00").toList) = ("2025-09-06T09:00:00").toList :=
  strip_offset_spec.2.1 (("2025-09-06T09:00:00").toList) (by decide)

/-- C7: `format_datetime` treats a trailing `Z` as UTC and renders in
Australia/Adelaide local time as `DD Mon YYYY, HH:MM AM/PM`, applying the
zone's rule for the given date: the claim's example
`2025-10-16T00:30:00Z` renders as `16 Oct 2025, 11:00 AM` (UTC+10:30,
daylight saving), `Z` is interchangeable with `+00:00`, and a June
instant renders with the UTC+9:30 standard offset.  The statement is
independent of the host-environment interpretation of naive inputs. -/
theorem format_datetime_adelaide (host : PyDatetime → Option (List Char)) :
    format_datetime host (("2025-10-16T00:30:00Z").toList)
      = some (("16 Oct 2025, 11:00 AM").toList)
    ∧ format_datetime host (("2025-10-16T00:30:00Z").toList)
      = format_datetime host (("2025-10-16T00:30:00+00:00").toList)
    ∧ format_datetime host (("2025-06-16T00:30:00Z").toList)
      = some (("16 Jun 2025, 10:00 AM").toList) :=
  ⟨rfl, rfl, rfl⟩

/-- C8: in `/sms_confirmation`, if either timestamp fails to parse, the
failure propagates and aborts the request: the result is an error and the
trace records no call to the messaging gateway (and hence no fallback
text). -/
theorem sms_parse_failure_aborts (host : PyDatetime → Option (List Char))
    (req : SMSRequest)
    (h : format_datetime host req.start_time = Option.none
       ∨ format_datetime host req.end_time = Option.none) :
    (send_sms_confirmation host req).1 = Except.error PyErr.exn
    ∧ (send_sms_confirmation host req).2 = [] := by
  cases h1 : format_datetime host req.start_time with
  | none =>
    unfold send_sms_confirmation
    rw [h1]
    exact ⟨rfl, rfl⟩
  | some s =>
    cases h with
    | inl hstart => rw [hstart] at h1; exact Option.noConfusion h1
    | inr hend =>
      unfold send_sms_confirmation
      rw [h1, hend]
      exact ⟨rfl, rfl⟩

/-- Witness for C8: a request with an unparseable start timestamp aborts
with no gateway call. -/
theorem sms_parse_failure_aborts_witness :
    (send_sms_confirmation hostNone smsReqBad).1 = Except.error PyErr.exn
    ∧ (send_sms_confirmation hostNone smsReqBad).2 = [] :=
  sms_parse_failure_aborts hostNone smsReqBad (Or.inl rfl)

/-- C9 counterexample: the code tests `status_code != 200`, not "non-2xx":
a 204 upstream response is a 2xx status, yet `/availability` fails with an
`HTTPException` instead of returning the payload. -/
theorem avail_2xx_error_cex :
    (200 ≤ wAvail204.status ∧ wAvail204.status ≤ 299)
    ∧ (check_availability availReqEx wAvail204).1
      = Except.error (PyErr.httpException 204 (PyVal.dict [])) :=
  ⟨by decide, rfl⟩

/-- C9 (amended): `/availability` fails with an HTTP error carrying the
upstream status code and body exactly when the upstream status differs
from 200, and otherwise returns the upstream calendar API's raw response
payload. -/
theorem avail_error_iff_status_not_200
    (req : AvailabilityRequest) (w : AvailWorld)
    (htok : hasKey w.tokenResp accessTokenKey = true) :
    (w.status ≠ 200 →
      (check_availability req w).1
        = Except.error (PyErr.httpException w.status w.body))
    ∧ (w.status = 200 → (check_availability req w).1 = Except.ok w.body) := by
  unfold check_availability get_token
  rw [htok]
  constructor
  · intro hne
    simp [hne]
  · intro heq
    simp [heq]

/-- Witness for C9 (amended): a 200 upstream response is passed through. -/
theorem avail_error_iff_status_not_200_witness :
    (check_availability availReqEx wAvail200).1 = Except.ok wAvail200.body :=
  (avail_error_iff_status_not_200 availReqEx wAvail200 rfl).2 rfl

/-- C1: in `/book`, whenever the calendar create-event call fails (any
status other than 201 "created"), the request aborts with an
`HTTPException` carrying the upstream status and a detail object wrapping
the upstream error body, and the trace contains no Odoo (CRM) call at
all. -/
theorem book_calendar_failure_aborts_without_crm
    (req : BookMeetingRequest) (w : World)
    (htok : hasKey w.tokenResp accessTokenKey = true)
    (hfail : w.outlookStatus ≠ 201) :
    (book_meeting req w).1 = Except.error (PyErr.httpException w.outlookStatus
      (PyVal.dict [(errorKey, PyVal.str outlookFailedMsg), (responseKey, w.outlookBody)]))
    ∧ (book_meeting req w).2.filter Call.isOdoo = [] := by
  unfold book_meeting get_token
  rw [htok]
  simp [hfail, Call.isOdoo]

/-- Witness for C1: a 409 calendar rejection aborts with the upstream
status and body and zero CRM calls. -/
theorem book_calendar_failure_aborts_without_crm_witness :
    (book_meeting reqEx wCalFail).1 = Except.error (PyErr.httpException 409
      (PyVal.dict [(errorKey, PyVal.str outlookFailedMsg),
        (responseKey, PyVal.dict [(errorKey, PyVal.str (("conflict").toList))])]))
    ∧ (book_meeting reqEx wCalFail).2.filter Call.isOdoo = [] :=
  book_calendar_failure_aborts_without_crm reqEx wCalFail rfl (by decide)

/-- C2: in `/book`, once the calendar create-event call has succeeded
(201 with an object body), a CRM sync failure is caught and converted
into a successful response whose `odoo_event_id` is `None`; it never
surfaces as an error to the caller. -/
theorem book_crm_failure_absorbed
    (req : BookMeetingRequest) (w : World) (fs : List (List Char × PyVal))
    (htok : hasKey w.tokenResp accessTokenKey = true)
    (hok : w.outlookStatus = 201)
    (hbody : w.outlookBody = PyVal.dict fs)
    (hcrm : (create_odoo_event w.odooAuthResp w.odooCreateResp req.attendee_name
      req.attendee req.phone req.start_time req.end_time req.subject).1
      = Except.error PyErr.exn) :
    (book_meeting req w).1 = Except.ok (bookSuccess req fs PyVal.none) := by
  unfold book_meeting get_token
  rw [htok, hok, hbody]
  simp [hcrm]

/-- Witness for C2: with a failing Odoo authentication, the booking still
returns the success dict with a `None` Odoo id. -/
theorem book_crm_failure_absorbed_witness :
    (book_meeting reqEx wCrmFail).1 = Except.ok (bookSuccess reqEx goodFields PyVal.none) :=
  book_crm_failure_absorbed reqEx wCrmFail goodFields rfl rfl rfl rfl

/-- C3 counterexample: the calendar call can succeed (status 201) while
the response body carries no `id`; the booking then succeeds with a null
`outlook_event_id`, contradicting the claim that a successful calendar
call always yields a non-null calendar event identifier. -/
theorem book_success_null_calendar_id_cex :
    wNoId.outlookStatus = 201
    ∧ (book_meeting reqEx wNoId).1
      = Except.ok (bookSuccess reqEx noIdFields (PyVal.int 42))
    ∧ PyVal.isNone (PyVal.getD (bookSuccess reqEx noIdFields (PyVal.int 42))
        outlookEventIdKey) = true :=
  ⟨rfl, rfl, rfl⟩

/-- C3 (amended): for every valid booking request, if the calendar
create-event call succeeds and its response body carries a non-null `id`,
the result returned by `/book` is a success whose `outlook_event_id` is
that non-null id, regardless of whether the CRM step succeeds or fails. -/
theorem book_success_id_from_body
    (req : BookMeetingRequest) (w : World) (fs : List (List Char × PyVal))
    (htok : hasKey w.tokenResp accessTokenKey = true)
    (hok : w.outlookStatus = 201)
    (hbody : w.outlookBody = PyVal.dict fs)
    (hid : PyVal.isNone (dictGet fs idKey) = false) :
    ∃ oid, (book_meeting req w).1 = Except.ok (bookSuccess req fs oid)
      ∧ PyVal.getD (bookSuccess req fs oid) outlookEventIdKey = dictGet fs idKey
      ∧ PyVal.isNone (PyVal.getD (bookSuccess req fs oid) outlookEventIdKey) = false := by
  unfold book_meeting get_token
  rw [htok, hok, hbody]
  exact ⟨_, rfl, rfl, hid⟩

/-- Witness for C3 (amended): with an `id` of `"E1"` and a successful CRM
sync, the booking succeeds and `outlook_event_id` is non-null. -/
theorem book_success_id_from_body_witness :
    ∃ oid, (book_meeting reqEx wGood).1 = Except.ok (bookSuccess reqEx goodFields oid)
      ∧ PyVal.getD (bookSuccess reqEx goodFields oid) outlookEventIdKey
        = dictGet goodFields idKey
      ∧ PyVal.isNone (PyVal.getD (bookSuccess reqEx goodFields oid)
          outlookEventIdKey) = false :=
  book_success_id_from_body reqEx wGood goodFields rfl rfl rfl rfl

/-- C10: in the successful `/book` response, `subject`, `start` and `end`
are read from the upstream calendar response body (hence `None` whenever
the body omits them), while `attendee` and `phone` are echoed verbatim
from the inbound request. -/
theorem book_success_field_sources
    (req : BookMeetingRequest) (w : World) (fs : List (List Char × PyVal))
    (htok : hasKey w.tokenResp accessTokenKey = true)
    (hok : w.outlookStatus = 201)
    (hbody : w.outlookBody = PyVal.dict fs) :
    ∃ oid, (book_meeting req w).1 = Except.ok (bookSuccess req fs oid)
      ∧ PyVal.getD (bookSuccess req fs oid) subjectKey = dictGet fs subjectKey
      ∧ PyVal.getD (bookSuccess req fs oid) startKey = dictGet fs startKey
      ∧ PyVal.getD (bookSuccess req fs oid) endKey = dictGet fs endKey
      ∧ (hasKey fs subjectKey = false →
          PyVal.getD (bookSuccess req fs oid) subjectKey = PyVal.none)
      ∧ PyVal.getD (bookSuccess req fs oid) attendeeKey = PyVal.str req.attendee
      ∧ PyVal.getD (bookSuccess req fs oid) phoneKey = PyVal.str req.phone := by
  have hnull : hasKey fs subjectKey = false → dictGet fs subjectKey = PyVal.none := by
    intro hk
    unfold hasKey at hk
    unfold dictGet
    cases hl : fs.lookup subjectKey with
    | none => rfl
    | some v => rw [hl] at hk; exact absurd hk (by simp)
  unfold book_meeting get_token
  rw [htok, hok, hbody]
  exact ⟨_, rfl, rfl, rfl, rfl, fun hk => hnull hk, rfl, rfl⟩

/-- Witness for C10: field provenance at a concrete successful booking. -/
theorem book_success_field_sources_witness :
    ∃ oid, (book_meeting reqEx wGood).1 = Except.ok (bookSuccess reqEx goodFields oid)
      ∧ PyVal.getD (bookSuccess reqEx goodFields oid) subjectKey
        = dictGet goodFields subjectKey
      ∧ PyVal.getD (bookSuccess reqEx goodFields oid) startKey
        = dictGet goodFields startKey
      ∧ PyVal.getD (bookSuccess reqEx goodFields oid) endKey
        = dictGet goodFields endKey
      ∧ (hasKey goodFields subjectKey = false →
          PyVal.getD (bookSuccess reqEx goodFields oid) subjectKey = PyVal.none)
      ∧ PyVal.getD (bookSuccess reqEx goodFields oid) attendeeKey
        = PyVal.str reqEx.attendee
      ∧ PyVal.getD (bookSuccess reqEx goodFields oid) phoneKey
        = PyVal.str reqEx.phone :=
  book_success_field_sources reqEx wGood goodFields rfl rfl rfl
